import Mathlib

/-!
Shallow embedding of the vox-brain-v2 retrieval engine.

The definitions below are translated from the repository's Python sources:
  * `src/vox_unified/datalayer.py`  (LocalMetaStorage, VectorStorage)
  * `src/vox_unified/middleware.py` (CacheLayer)
  * `src/vox_unified/manager.py`    (VoxManager)
  * `src/vox_unified/gatherer.py`   (PythonParser, TypeScriptParser, Gatherer)
  * `src/vox_unified/embeddings.py` (get_ollama_embedding)
  * `src/vox_unified/models.py`     (SymbolType, Symbol, SearchResult)
  * `core/embeddings.py`            (EmbeddingEngine)

External collaborators (the OS, sqlite/postgres connections, the tree-sitter
parse step, the langchain text splitters, the embedding provider and the
pgvector distance operator) are passed in as explicit parameters:
database interactions are `Except`-valued where the Python code can raise,
machine reals (vector distances) are modelled as `Rat`.
-/

namespace Vox

/- ---------------------------------------------------------------------------
String helpers mirroring the Python / SQL primitives used by the sources.
--------------------------------------------------------------------------- -/

/-- Helper for Python's substring test: does `needle` start `hay`? -/
def startsWithChars : List Char → List Char → Bool
  | [], _ => true
  | _ :: _, [] => false
  | a :: as, b :: bs => a == b && startsWithChars as bs

/-- Helper: does `needle` occur anywhere in the character list? -/
def hasSubstrChars (needle : List Char) : List Char → Bool
  | [] => needle.isEmpty
  | h :: t => startsWithChars needle (h :: t) || hasSubstrChars needle t

/-- Python's `needle in hay` substring test on strings
    (used by `gatherer.py` line 179: `if '.cursor' in dirpath`). -/
def strContainsSub (hay needle : String) : Bool :=
  hasSubstrChars needle.toList hay.toList

/-- SQL `LIKE` pattern matching on already case-folded character lists:
    `%` matches any sequence, `_` any single character.  The `fuel`
    argument only makes the recursion structural (every step shortens
    `pat.length + s.length`, so `likeMatch` below always supplies enough). -/
def likeMatchFuel : Nat → List Char → List Char → Bool
  | 0, _, _ => false
  | fuel + 1, pat, s =>
    match pat, s with
    | [], [] => true
    | [], _ :: _ => false
    | '%' :: p, [] => likeMatchFuel fuel p []
    | '%' :: p, c :: s2 =>
      likeMatchFuel fuel p (c :: s2) || likeMatchFuel fuel ('%' :: p) s2
    | '_' :: _, [] => false
    | '_' :: p, _ :: s2 => likeMatchFuel fuel p s2
    | c :: _, [] => false && (c == c)
    | c :: p, c2 :: s2 => c == c2 && likeMatchFuel fuel p s2

/-- SQL `LIKE` on case-folded character lists. -/
def likeMatch (pat s : List Char) : Bool :=
  likeMatchFuel (pat.length + s.length + 1) pat s

/-- Case folding, character-wise. -/
def lowerChars (s : String) : List Char := s.toList.map Char.toLower

/-- Postgres `s ILIKE pat`: case-insensitive `LIKE`
    (`datalayer.py` lines 209-216 order by `name ILIKE %s`). -/
def ilike (s pat : String) : Bool :=
  likeMatch (lowerChars pat) (lowerChars s)

/-- Python's character slice `s[:n]` (strings are indexed by characters). -/
def pyTake (s : String) (n : Nat) : String :=
  String.mk (s.toList.take n)

/- ---------------------------------------------------------------------------
models.py — SymbolType, Symbol, SearchResult
--------------------------------------------------------------------------- -/

/-- `models.py` lines 5-11: the `SymbolType(str, Enum)`.
    Note: there is NO `OTHER` member; `gatherer.py` line 116 references
    `SymbolType.OTHER`, which raises `AttributeError` at run time. -/
inductive SymbolType where
  | CLASS
  | FUNCTION
  | METHOD
  | INTERFACE
  | TYPE
  | MODULE
deriving Repr, DecidableEq

/-- The `.value` of each enum member. -/
def SymbolType.value : SymbolType → String
  | .CLASS => "class"
  | .FUNCTION => "function"
  | .METHOD => "method"
  | .INTERFACE => "interface"
  | .TYPE => "type"
  | .MODULE => "module"

/-- `models.py` lines 13-23: the `Symbol` pydantic model
    (the `dependencies` list is never set by this code and is omitted). -/
structure Symbol where
  name : String
  type : SymbolType
  file_path : String
  start_line : Nat
  end_line : Nat
  code : String
  parent : Option String := none
  signature : Option String := none
  docstring : Option String := none
deriving Repr, DecidableEq

/-- `models.py` lines 29-34: `SearchResult` (metadata is a string map here;
    the only key ever set by `datalayer.py` is `"name"`). -/
structure SearchResult where
  content : String
  source : String
  relevance : Rat
  metadata : List (String × String)
  type : String
deriving Repr, DecidableEq

/- ---------------------------------------------------------------------------
datalayer.py — LocalMetaStorage (sqlite)
--------------------------------------------------------------------------- -/

/-- Row of the sqlite `projects` table (`datalayer.py` lines 37-44). -/
structure ProjectRow where
  id : String
  name : String
  path : String
deriving Repr, DecidableEq

/-- Row of the sqlite `documents` table (`datalayer.py` lines 46-57). -/
structure DocumentRow where
  id : Nat
  project_id : String
  type : String
  title : Option String
  content : String
  file_path : Option String
deriving Repr, DecidableEq

/-- The sqlite database state: the two tables plus the AUTOINCREMENT counter
    for `documents.id`. -/
structure LocalState where
  projects : List ProjectRow
  documents : List DocumentRow
  nextDocId : Nat := 1
deriving Repr, DecidableEq

namespace LocalMetaStorage

/-- `datalayer.py` lines 60-65 (`INSERT INTO projects`). -/
def add_project (st : LocalState) (project_id name path : String) : LocalState :=
  { st with projects := st.projects ++ [⟨project_id, name, path⟩] }

/-- `datalayer.py` lines 67-72 (`SELECT ... WHERE id = ?` + `fetchone`). -/
def get_project (st : LocalState) (project_id : String) : Option ProjectRow :=
  st.projects.find? (fun r => r.id == project_id)

/-- `datalayer.py` lines 74-79 (`SELECT ... WHERE path = ?` + `fetchone`). -/
def get_project_by_path (st : LocalState) (path : String) : Option ProjectRow :=
  st.projects.find? (fun r => r.path == path)

/-- `datalayer.py` lines 86-88: `DELETE FROM projects WHERE id = ?`.
    The schema declares `FOREIGN KEY(project_id) REFERENCES projects(id)
    ON DELETE CASCADE` on `documents` (line 55), but the code never executes
    `PRAGMA foreign_keys = ON`, and Python's sqlite3 leaves foreign-key
    enforcement OFF by default — so the declared cascade does NOT fire and
    the `documents` rows are left untouched.  This definition models that
    actual run-time behaviour. -/
def delete_project (st : LocalState) (project_id : String) : LocalState :=
  { st with projects := st.projects.filter (fun r => r.id != project_id) }

/-- `datalayer.py` lines 91-97 (`INSERT INTO documents`, returns `lastrowid`). -/
def add_document (st : LocalState) (project_id doc_type content : String)
    (title : Option String := none) (file_path : Option String := none) :
    Nat × LocalState :=
  (st.nextDocId,
   { st with
       documents := st.documents ++
         [⟨st.nextDocId, project_id, doc_type, title, content, file_path⟩]
       nextDocId := st.nextDocId + 1 })

/-- `datalayer.py` lines 99-105 (`SELECT ... FROM documents WHERE project_id = ?`). -/
def list_documents (st : LocalState) (project_id : String) : List DocumentRow :=
  st.documents.filter (fun d => d.project_id == project_id)

/-- `datalayer.py` lines 107-109: used by the indexer; delegates to
    `list_documents`. -/
def get_all_documents_for_indexing (st : LocalState) (project_id : String) :
    List DocumentRow :=
  list_documents st project_id

/-- `datalayer.py` lines 111-113: `DELETE FROM documents WHERE id = ?`.
    Note that it does not look at any project id. -/
def delete_document (st : LocalState) (doc_id : Nat) : LocalState :=
  { st with documents := st.documents.filter (fun d => d.id != doc_id) }

end LocalMetaStorage

/- ---------------------------------------------------------------------------
middleware.py — CacheLayer (sqlite `cache` table)
--------------------------------------------------------------------------- -/

/-- Row of the sqlite `cache` table (`middleware.py` lines 21-29);
    primary key is `(project_id, key)`. -/
structure CacheRow where
  project_id : String
  key : String
  value : String
deriving Repr, DecidableEq

namespace CacheLayer

/-- `middleware.py` lines 31-42: read one cache entry.  (The json decode
    round-trip returns the raw stored string whenever the value is not
    valid JSON, which is the case for every value this program stores.) -/
def get (c : List CacheRow) (project_id key : String) : Option String :=
  (c.find? (fun r => r.project_id == project_id && r.key == key)).map (·.value)

/-- `middleware.py` lines 44-50: `INSERT OR REPLACE` upsert. -/
def set (c : List CacheRow) (project_id key value : String) : List CacheRow :=
  (c.filter (fun r => !(r.project_id == project_id && r.key == key))) ++
    [⟨project_id, key, value⟩]

/-- `middleware.py` lines 52-57: delete one key, or — when `key` is omitted —
    every cache row of the project. -/
def invalidate (c : List CacheRow) (project_id : String)
    (key : Option String := none) : List CacheRow :=
  match key with
  | some k => c.filter (fun r => !(r.project_id == project_id && r.key == k))
  | none => c.filter (fun r => r.project_id != project_id)

end CacheLayer

/- ---------------------------------------------------------------------------
datalayer.py — VectorStorage (postgres + pgvector)
--------------------------------------------------------------------------- -/

/-- Row of the postgres `vox_symbols` table (`datalayer.py` lines 140-151). -/
structure SymbolRow where
  project_id : String
  name : String
  symbol_type : String
  code : String
  embedding : List Rat
  file_path : Option String
deriving Repr, DecidableEq

/-- Row of the postgres `vox_textdata` table (`datalayer.py` lines 156-165). -/
structure TextRow where
  project_id : String
  content : String
  embedding : List Rat
  source_type : String
deriving Repr, DecidableEq

/-- The two vector-store tables. -/
structure VectorState where
  symbols : List SymbolRow
  texts : List TextRow
deriving Repr, DecidableEq

/-- A text chunk as passed to `save_text_chunks`: a dict with `content`
    and `type` keys (`gatherer.py` items / `manager.py` doc chunks). -/
structure TextChunk where
  content : String
  type : String
deriving Repr, DecidableEq

/-- Stable insertion of `a` into a sorted list, by a boolean `le`. -/
def insertBy (le : α → α → Bool) (a : α) : List α → List α
  | [] => [a]
  | b :: t => if le a b then a :: b :: t else b :: insertBy le a t

/-- Stable sort by a boolean `le`; models a SQL `ORDER BY` whose sort keys
    determine the output order (ties keep input order, one deterministic
    refinement of the SQL behaviour). -/
def sortBy (le : α → α → Bool) : List α → List α
  | [] => []
  | a :: t => insertBy le a (sortBy le t)

/-- Strict order on `Bool` with `false < true` (Postgres boolean order). -/
def ltB (a b : Bool) : Bool := !a && b

/-- Lexicographic `≤` on a `(Bool, Bool, Rat)` sort key, all ascending. -/
def lex3LE (k1 k2 : Bool × Bool × Rat) : Bool :=
  ltB k1.1 k2.1 ||
    (k1.1 == k2.1 &&
      (ltB k1.2.1 k2.2.1 ||
        (k1.2.1 == k2.2.1 && decide (k1.2.2 ≤ k2.2.2))))

namespace VectorStorage

/-- `datalayer.py` lines 173-188: `save_symbols` — plain `INSERT` of one row
    per symbol, no cleanup, no dedup.  The surrounding `with psycopg.connect`
    has no `try`, so a connection failure propagates (`conn` argument); an
    `embeddings[i]` lookup past the end of `embeddings` raises `IndexError`,
    which also propagates. -/
def save_symbols (conn : Except String Unit) (table : List SymbolRow)
    (symbols : List Symbol) (project_id : String)
    (embeddings : List (List Rat)) : Except String (List SymbolRow) :=
  match conn with
  | .error e => .error e
  | .ok _ =>
    if symbols.length ≤ embeddings.length then
      .ok (table ++ (symbols.zip embeddings).map (fun p =>
        { project_id := project_id
          name := p.1.name
          symbol_type := p.1.type.value
          code := p.1.code
          embedding := p.2
          file_path := some p.1.file_path }))
    else .error "IndexError: list index out of range"

/-- The `WHERE project_id = %s` scoping filter (added only when a project id
    is supplied — `datalayer.py` lines 204-206 / 262-264). -/
def projectFilter (project_id : Option String) (rows : List α)
    (pid : α → String) : List α :=
  match project_id with
  | none => rows
  | some p => rows.filter (fun r => pid r == p)

/-- The three-part sort key of `search_symbols` (`datalayer.py` lines
    209-216): `(name ILIKE query) DESC, (name ILIKE query + percent) DESC,
    distance ASC`.  A `DESC` boolean is encoded ascending on its negation. -/
def symOrderKey (query_text : String) (d : List Rat → List Rat → Rat)
    (query_embedding : List Rat) (r : SymbolRow) : Bool × Bool × Rat :=
  (!(ilike r.name query_text),
   !(ilike r.name (query_text ++ "%")),
   d query_embedding r.embedding)

/-- Row-to-result mapping of `search_symbols` (`datalayer.py` lines 221-229);
    `source = fpath or "symbol"` treats `NULL` and `""` as falsy. -/
def symbolResult (d : List Rat → List Rat → Rat) (query_embedding : List Rat)
    (r : SymbolRow) : SearchResult :=
  { content := "Symbol: " ++ r.name ++ "\nCode:\n" ++ r.code
    source := match r.file_path with
      | some s => if s == "" then "symbol" else s
      | none => "symbol"
    relevance := 1 - d query_embedding r.embedding
    metadata := [("name", r.name)]
    type := "symbolic" }

/-- `datalayer.py` lines 190-232: hybrid symbol search.  The whole body is
    wrapped in `try ... except` that logs and falls through to `return
    results`, so any database failure yields the empty list (`conn` is the
    connection/fetch outcome).  The ranking keys on the symbol NAME
    (exact `ILIKE`, then `ILIKE query%` on the name), then distance;
    row content plays no role. -/
def search_symbols (conn : Except String (List SymbolRow))
    (query_text : String) (query_embedding : List Rat)
    (project_id : Option String) (limit : Nat)
    (d : List Rat → List Rat → Rat) : List SearchResult :=
  match conn with
  | .error _ => []
  | .ok rows =>
    let filtered := projectFilter project_id rows (·.project_id)
    let sorted := sortBy (fun a b =>
      lex3LE (symOrderKey query_text d query_embedding a)
             (symOrderKey query_text d query_embedding b)) filtered
    (sorted.take limit).map (symbolResult d query_embedding)

/-- `datalayer.py` lines 236-247: `save_text_chunks` — plain `INSERT`; no
    `try`, so failures propagate; `chunk.get("type", "unknown")` is the
    stored `source_type` (every producer sets `type`, modelled directly). -/
def save_text_chunks (conn : Except String Unit) (table : List TextRow)
    (chunks : List TextChunk) (project_id : String)
    (embeddings : List (List Rat)) : Except String (List TextRow) :=
  match conn with
  | .error e => .error e
  | .ok _ =>
    if chunks.length ≤ embeddings.length then
      .ok (table ++ (chunks.zip embeddings).map (fun p =>
        { project_id := project_id
          content := p.1.content
          embedding := p.2
          source_type := p.1.type }))
    else .error "IndexError: list index out of range"

/-- Row-to-result mapping of `search_text` (`datalayer.py` lines 270-278);
    `source = stype or "text"`. -/
def textResult (d : List Rat → List Rat → Rat) (query_embedding : List Rat)
    (r : TextRow) : SearchResult :=
  { content := r.content
    source := if r.source_type == "" then "text" else r.source_type
    relevance := 1 - d query_embedding r.embedding
    metadata := []
    type := "text" }

/-- `datalayer.py` lines 249-281: text search.  `ORDER BY distance ASC
    LIMIT %s` — distance is the ONLY sort key, there is no lexical boost of
    any kind.  Failures degrade to the empty list exactly as in
    `search_symbols`. -/
def search_text (conn : Except String (List TextRow))
    (query_embedding : List Rat) (project_id : Option String) (limit : Nat)
    (d : List Rat → List Rat → Rat) : List SearchResult :=
  match conn with
  | .error _ => []
  | .ok rows =>
    let filtered := projectFilter project_id rows (·.project_id)
    let sorted := sortBy (fun a b =>
      decide (d query_embedding a.embedding ≤ d query_embedding b.embedding))
      filtered
    (sorted.take limit).map (textResult d query_embedding)

/-- Pure effect of `delete_project_data` on the two tables
    (`datalayer.py` lines 286-287). -/
def delete_project_rows (v : VectorState) (project_id : String) : VectorState :=
  { symbols := v.symbols.filter (fun r => r.project_id != project_id)
    texts := v.texts.filter (fun r => r.project_id != project_id) }

/-- `datalayer.py` lines 283-287: `delete_project_data` — deletes every row
    of both tables for the project; no `try`, failures propagate. -/
def delete_project_data (conn : Except String Unit) (v : VectorState)
    (project_id : String) : Except String VectorState :=
  match conn with
  | .error e => .error e
  | .ok _ => .ok (delete_project_rows v project_id)

end VectorStorage

/- ---------------------------------------------------------------------------
manager.py — VoxManager (state-level operations)
--------------------------------------------------------------------------- -/

/-- The composite state a `VoxManager` operates on: the sqlite registry,
    the postgres vector store and the sqlite cache table. -/
structure VoxState where
  loc : LocalState
  vec : VectorState
  cache : List CacheRow
deriving Repr, DecidableEq

namespace VoxManager

/-- `manager.py` lines 17-33: `project_create`.  `fs_exists`, `abspath` and
    `basename` stand for `os.path.exists`, `os.path.abspath` and
    `os.path.basename`; `fresh_id` is the freshly drawn
    `uuid.uuid4().hex[:16]`.  Returns the id (or `None` when the path does
    not exist) and the new registry state.  `name or basename(abs_path)`
    treats an empty name as falsy. -/
def project_create (fs_exists : String → Bool) (abspath basename : String → String)
    (st : LocalState) (path : String) (name : Option String)
    (fresh_id : String) : Option String × LocalState :=
  let abs_path := abspath path
  if !(fs_exists abs_path) then (none, st)
  else
    match LocalMetaStorage.get_project_by_path st abs_path with
    | some existing => (some existing.id, st)
    | none =>
      let project_name :=
        match name with
        | some n => if n == "" then basename abs_path else n
        | none => basename abs_path
      (some fresh_id, LocalMetaStorage.add_project st fresh_id project_name abs_path)

/-- `manager.py` lines 46-50: `project_delete` — deletes the project row
    (sqlite), both vector tables (postgres) and the whole project cache.
    This is the happy path; a storage failure would propagate. -/
def project_delete (st : VoxState) (project_id : String) : VoxState :=
  { loc := LocalMetaStorage.delete_project st.loc project_id
    vec := VectorStorage.delete_project_rows st.vec project_id
    cache := CacheLayer.invalidate st.cache project_id }

/-- `manager.py` line 112: the text submitted to the embedder for one
    symbol — `f"{s.type} {s.name}\n{s.code[:200]}"` (the f-string renders the
    `str`-mixin enum as its value; only the first 200 characters of the code
    reach the embedder, while `save_symbols` later persists the full code). -/
def symbolEmbedText (s : Symbol) : String :=
  s.type.value ++ " " ++ s.name ++ "\n" ++ pyTake s.code 200

/-- `manager.py` lines 170-172: `docs_delete` — deletes the local document
    row ONLY (`int(doc_id)` modelled as the `Nat` argument) and then just
    prints a reminder to re-run the index build; the vector store is not
    touched. -/
def docs_delete (st : VoxState) (doc_id : Nat) : VoxState :=
  { st with loc := LocalMetaStorage.delete_document st.loc doc_id }

end VoxManager

/- ---------------------------------------------------------------------------
Claim C4 — project_create is idempotent by path
--------------------------------------------------------------------------- -/

/-- Claim C4: registering a project is idempotent by path — for a filesystem
    path already registered, `project_create` returns the existing project's
    id and leaves the registry unchanged; and registering the same path twice
    returns the same id both times (the second call also not changing the
    registry produced by the first). -/
theorem project_create_idempotent_by_path
    (fs_exists : String → Bool) (abspath basename : String → String)
    (st : LocalState) (p : String) (nm nm2 : Option String)
    (fresh fresh2 : String)
    (hfs : fs_exists (abspath p) = true) :
    (∀ row, LocalMetaStorage.get_project_by_path st (abspath p) = some row →
      VoxManager.project_create fs_exists abspath basename st p nm fresh
        = (some row.id, st)) ∧
    ((VoxManager.project_create fs_exists abspath basename
        (VoxManager.project_create fs_exists abspath basename st p nm fresh).2
        p nm2 fresh2).1
      = (VoxManager.project_create fs_exists abspath basename st p nm fresh).1 ∧
     (VoxManager.project_create fs_exists abspath basename
        (VoxManager.project_create fs_exists abspath basename st p nm fresh).2
        p nm2 fresh2).2
      = (VoxManager.project_create fs_exists abspath basename st p nm fresh).2) := by
  constructor
  · intro row hrow
    simp only [VoxManager.project_create, hfs, Bool.not_true, Bool.false_eq_true,
      if_false, hrow]
  · cases hfind : LocalMetaStorage.get_project_by_path st (abspath p) with
    | some row =>
      simp only [VoxManager.project_create, hfs, Bool.not_true, Bool.false_eq_true,
        if_false, hfind]
      exact ⟨trivial, trivial⟩
    | none =>
      have hfind2 : LocalMetaStorage.get_project_by_path
          (LocalMetaStorage.add_project st fresh
            (match nm with
              | some n => if n == "" then basename (abspath p) else n
              | none => basename (abspath p)) (abspath p)) (abspath p)
          = some ⟨fresh,
              (match nm with
                | some n => if n == "" then basename (abspath p) else n
                | none => basename (abspath p)), abspath p⟩ := by
        unfold LocalMetaStorage.get_project_by_path LocalMetaStorage.add_project at *
        rw [List.find?_append, hfind]
        simp
      simp only [VoxManager.project_create, hfs, Bool.not_true, Bool.false_eq_true,
        if_false, hfind, hfind2]
      exact ⟨trivial, trivial⟩

/-- Witness for C4 at a concrete registry: re-registering `/proj` returns the
    already-registered id `id0` and does not change the registry. -/
theorem project_create_idempotent_by_path_witness :
    VoxManager.project_create (fun _ => true) (fun s => s) (fun s => s)
      ⟨[⟨"id0", "n", "/proj"⟩], [], 1⟩ "/proj" none "id1"
      = (some "id0", ⟨[⟨"id0", "n", "/proj"⟩], [], 1⟩) := by
  exact (project_create_idempotent_by_path (fun _ => true) (fun s => s)
    (fun s => s) ⟨[⟨"id0", "n", "/proj"⟩], [], 1⟩ "/proj" none none "id1" "id2"
    rfl).1 ⟨"id0", "n", "/proj"⟩ (by decide)

/- ---------------------------------------------------------------------------
Claim C5 — lookup failures degrade to [], write failures propagate
--------------------------------------------------------------------------- -/

/-- Claim C5: a failure during a vector-store lookup (`search_symbols`,
    `search_text`) yields the empty result list and never an exception,
    while a failure during a vector-store write (`save_symbols`,
    `save_text_chunks`, `delete_project_data`) propagates to the caller. -/
theorem vector_store_failure_semantics :
    (∀ (e q : String) (qe : List Rat) (pid : Option String) (lim : Nat)
        (d : List Rat → List Rat → Rat),
      VectorStorage.search_symbols (.error e) q qe pid lim d = []) ∧
    (∀ (e : String) (qe : List Rat) (pid : Option String) (lim : Nat)
        (d : List Rat → List Rat → Rat),
      VectorStorage.search_text (.error e) qe pid lim d = []) ∧
    (∀ (e : String) (table : List SymbolRow) (syms : List Symbol)
        (pid : String) (embs : List (List Rat)),
      VectorStorage.save_symbols (.error e) table syms pid embs = .error e) ∧
    (∀ (e : String) (table : List TextRow) (chunks : List TextChunk)
        (pid : String) (embs : List (List Rat)),
      VectorStorage.save_text_chunks (.error e) table chunks pid embs = .error e) ∧
    (∀ (e : String) (v : VectorState) (pid : String),
      VectorStorage.delete_project_data (.error e) v pid = .error e) :=
  ⟨fun _ _ _ _ _ _ => rfl, fun _ _ _ _ _ => rfl, fun _ _ _ _ _ => rfl,
   fun _ _ _ _ _ => rfl, fun _ _ _ => rfl⟩

/- ---------------------------------------------------------------------------
Claim C10 — docs_delete is local-only; the vector store is untouched
--------------------------------------------------------------------------- -/

/-- Claim C10: `docs_delete` removes the document row from the local registry
    only; the vector store (and cache) are unchanged, so both searches return
    exactly what they returned before the deletion — the deleted document's
    indexed chunks remain retrievable until the next forced index build. -/
theorem docs_delete_local_only (st : VoxState) (doc_id : Nat) (q : String)
    (qe : List Rat) (pid : Option String) (lim : Nat)
    (d : List Rat → List Rat → Rat) :
    (VoxManager.docs_delete st doc_id).vec = st.vec ∧
    (VoxManager.docs_delete st doc_id).cache = st.cache ∧
    (VoxManager.docs_delete st doc_id).loc.projects = st.loc.projects ∧
    (VoxManager.docs_delete st doc_id).loc.documents
      = st.loc.documents.filter (fun dr => dr.id != doc_id) ∧
    VectorStorage.search_text (.ok (VoxManager.docs_delete st doc_id).vec.texts)
        qe pid lim d
      = VectorStorage.search_text (.ok st.vec.texts) qe pid lim d ∧
    VectorStorage.search_symbols
        (.ok (VoxManager.docs_delete st doc_id).vec.symbols) q qe pid lim d
      = VectorStorage.search_symbols (.ok st.vec.symbols) q qe pid lim d :=
  ⟨rfl, rfl, rfl, rfl, rfl, rfl⟩

/- ---------------------------------------------------------------------------
Claim C2 — the "lexical boost" of hybrid search
--------------------------------------------------------------------------- -/

/-- Example distance operator for concrete tables: the distance of a stored
    row to any query is the first entry of the row's embedding (a legitimate
    instantiation — the code treats the pgvector distance as an opaque
    operator). -/
def dFirst : List Rat → List Rat → Rat := fun _ e => e.headD 0

/-- Text row whose content contains the query `"foo"`, at distance 9. -/
def rowWithFoo : TextRow := ⟨"p1", "the foo helper", [(9 : Rat)], "markdown"⟩

/-- Text row whose content does not contain `"foo"`, at distance 1. -/
def rowNoFoo : TextRow := ⟨"p1", "unrelated prose", [(1 : Rat)], "markdown"⟩

/-- Claim C2 counterexample: two stored text items of equal type, exactly one
    containing the query text `"foo"` as a substring — yet `search_text`
    ranks the NON-containing item first, because its ordering is by vector
    distance alone.  The claimed content-substring boost does not exist. -/
theorem lexical_boost_counterexample :
    strContainsSub rowWithFoo.content "foo" = true ∧
    strContainsSub rowNoFoo.content "foo" = false ∧
    rowWithFoo.source_type = rowNoFoo.source_type ∧
    VectorStorage.search_text (.ok [rowWithFoo, rowNoFoo]) [0] (some "p1") 10 dFirst
      = [VectorStorage.textResult dFirst [0] rowNoFoo,
         VectorStorage.textResult dFirst [0] rowWithFoo] := by
  refine ⟨by decide, by decide, rfl, ?_⟩
  rfl

/-- Evaluation of `sortBy` on a two-element list. -/
theorem sortBy_pair (le : α → α → Bool) (a b : α) :
    sortBy le [a, b] = if le a b then [a, b] else [b, a] := by
  simp [sortBy, insertBy]

/-- Claim C2 (amended): in `search_text` the ranking is by vector distance
    alone — of two stored text rows the one at strictly smaller distance is
    returned first whatever their contents; in `search_symbols` the lexical
    boost keys on the symbol NAME — a row whose name matches the query under
    `ILIKE` is returned ahead of a row whose name does not, whatever the
    distances.  (Both facts are stated for both input orders of a two-row
    table, with the limit large enough to keep both rows.) -/
theorem ranking_is_name_and_distance_based
    (d : List Rat → List Rat → Rat) (qe : List Rat) (q : String)
    (a b : TextRow) (sa sb : SymbolRow) (lim : Nat) (hlim : 2 ≤ lim)
    (hd : d qe a.embedding < d qe b.embedding)
    (hsa : ilike sa.name q = true) (hsb : ilike sb.name q = false) :
    VectorStorage.search_text (.ok [a, b]) qe none lim d
      = [VectorStorage.textResult d qe a, VectorStorage.textResult d qe b] ∧
    VectorStorage.search_text (.ok [b, a]) qe none lim d
      = [VectorStorage.textResult d qe a, VectorStorage.textResult d qe b] ∧
    VectorStorage.search_symbols (.ok [sa, sb]) q qe none lim d
      = [VectorStorage.symbolResult d qe sa, VectorStorage.symbolResult d qe sb] ∧
    VectorStorage.search_symbols (.ok [sb, sa]) q qe none lim d
      = [VectorStorage.symbolResult d qe sa, VectorStorage.symbolResult d qe sb] := by
  have htk : ∀ {α : Type} (x y : α), List.take lim [x, y] = [x, y] := by
    intro α x y
    exact List.take_of_length_le (by simpa using hlim)
  have hab : decide (d qe a.embedding ≤ d qe b.embedding) = true := by
    simp [le_of_lt hd]
  have hba : decide (d qe b.embedding ≤ d qe a.embedding) = false := by
    simp [not_le.mpr hd]
  have hsym1 : lex3LE (VectorStorage.symOrderKey q d qe sa)
      (VectorStorage.symOrderKey q d qe sb) = true := by
    simp [lex3LE, VectorStorage.symOrderKey, ltB, hsa, hsb]
  have hsym2 : lex3LE (VectorStorage.symOrderKey q d qe sb)
      (VectorStorage.symOrderKey q d qe sa) = false := by
    simp [lex3LE, VectorStorage.symOrderKey, ltB, hsa, hsb]
  refine ⟨?_, ?_, ?_, ?_⟩ <;>
    simp [VectorStorage.search_text, VectorStorage.search_symbols,
      VectorStorage.projectFilter, sortBy_pair, hab, hba, hsym1, hsym2, htk]

/-- Witness for the amended C2 at concrete rows: name-matching symbol row
    first, smaller-distance text row first. -/
theorem ranking_is_name_and_distance_based_witness :
    VectorStorage.search_text (.ok [rowNoFoo, rowWithFoo]) [0] none 10 dFirst
      = [VectorStorage.textResult dFirst [0] rowNoFoo,
         VectorStorage.textResult dFirst [0] rowWithFoo] ∧
    VectorStorage.search_symbols
        (.ok [⟨"p1", "bar", "function", "c1", [0], none⟩,
              ⟨"p1", "Foo", "function", "c2", [1], none⟩]) "foo" [0] none 10 dFirst
      = [VectorStorage.symbolResult dFirst [0] ⟨"p1", "Foo", "function", "c2", [1], none⟩,
         VectorStorage.symbolResult dFirst [0] ⟨"p1", "bar", "function", "c1", [0], none⟩] := by
  have h := ranking_is_name_and_distance_based dFirst [0] "foo"
    rowNoFoo rowWithFoo
    ⟨"p1", "Foo", "function", "c2", [1], none⟩
    ⟨"p1", "bar", "function", "c1", [0], none⟩ 10
    (by decide) (by decide) (by decide) (by decide)
  exact ⟨h.1, h.2.2.2⟩

/- ---------------------------------------------------------------------------
embeddings — core/embeddings.py (EmbeddingEngine) and
src/vox_unified/embeddings.py (get_ollama_embedding)
--------------------------------------------------------------------------- -/

/-- Python's `text.strip()`: drop whitespace from both ends. -/
def pyStrip (s : String) : String :=
  String.mk
    (((s.toList.dropWhile Char.isWhitespace).reverse.dropWhile
        Char.isWhitespace).reverse)

/-- Python's `s.startswith(pfx)`. -/
def pyStartsWith (s pfx : String) : Bool :=
  startsWithChars pfx.toList s.toList

namespace EmbeddingEngine

/-- `core/embeddings.py` lines 14-18: per-text preprocessing of
    `EmbeddingEngine.get_embeddings` — whitespace-only text becomes the
    placeholder `"empty"`, then the text is cut to 8000 characters for the
    provider call. -/
def safeText (text : String) : String :=
  pyTake (if pyStrip text == "" then "empty" else text) 8000

/-- `core/embeddings.py` lines 8-26: `get_embeddings` — one provider call
    per text after `safeText` preprocessing; a provider failure substitutes
    the neutral `[0.0] * 768` vector and the batch continues. -/
def get_embeddings (provider : String → Except String (List Rat))
    (texts : List String) : List (List Rat) :=
  texts.map fun text =>
    match provider (safeText text) with
    | .ok v => v
    | .error _ => List.replicate 768 0

end EmbeddingEngine

/-- The nomic framing prefix chosen by `get_ollama_embedding`
    (`src/vox_unified/embeddings.py` line 12). -/
def nomicPfx (is_query : Bool) : String :=
  if is_query then "search_query: " else "search_document: "

/-- `src/vox_unified/embeddings.py` lines 10-14: the prompt actually posted
    by `get_ollama_embedding` — for the nomic model a framing prefix is
    prepended (unless already present); there is NO placeholder substitution
    and NO length truncation anywhere in this function. -/
def get_ollama_embedding_prompt (text model : String) (is_query : Bool) : String :=
  if model == "nomic-embed-text" then
    if pyStartsWith text (nomicPfx is_query) then text
    else nomicPfx is_query ++ text
  else text

/-- `src/vox_unified/embeddings.py` lines 16-37: `get_ollama_embedding`
    posts the prompt and re-raises every provider failure as
    `RuntimeError` (modelled by the `Except` error). -/
def get_ollama_embedding (provider : String → Except String (List Rat))
    (text : String) (model : String := "nomic-embed-text")
    (is_query : Bool := false) : Except String (List Rat) :=
  provider (get_ollama_embedding_prompt text model is_query)

/-- The posted prompt is never shorter than the input text: whatever the
    branches, `get_ollama_embedding` never truncates. -/
theorem prompt_length_ge (text model : String) (is_query : Bool) :
    text.length ≤ (get_ollama_embedding_prompt text model is_query).length := by
  unfold get_ollama_embedding_prompt
  split
  · split
    · exact le_refl text.length
    · rw [String.length_append]; omega
  · exact le_refl text.length

/-- An 8001-character text (one character over the claimed safety ceiling). -/
def longText8001 : String := String.mk (List.replicate 8001 'a')

/-- Claim C7 counterexample: the vox_unified embedding client
    (`get_ollama_embedding`, the one used by `manager.py`) does NOT truncate
    oversized text for the embedding call — the prompt posted for an
    8001-character text is longer than 8000 characters — and does NOT
    replace whitespace-only text with a placeholder — the posted prompt for
    `"   "` is just the framing prefix with the whitespace kept verbatim. -/
theorem get_ollama_embedding_no_preprocessing :
    ¬((get_ollama_embedding_prompt longText8001 "nomic-embed-text" false).length
        ≤ 8000) ∧
    get_ollama_embedding_prompt "   " "nomic-embed-text" false
      = "search_document:    " := by
  constructor
  · intro hle
    have h1 : longText8001.length = 8001 := by
      show (List.replicate 8001 'a').length = 8001
      rw [List.length_replicate]
    have h2 := prompt_length_ge longText8001 "nomic-embed-text" false
    omega
  · decide

/-- Claim C7 (amended): the CORE embedding client
    (`EmbeddingEngine.get_embeddings`) replaces whitespace-only text by the
    placeholder `"empty"` and cuts the provider input to at most 8000
    characters, otherwise passing the text through unchanged up to the
    ceiling; on the persistence side, the vox_unified manager embeds at most
    the first 200 characters of a symbol's code while `save_symbols` stores
    the full untruncated code as the row content.  (The vox_unified client
    `get_ollama_embedding` itself applies neither rule — see the
    counterexample.) -/
theorem embedding_preprocessing_amended (text : String) (s : Symbol)
    (table : List SymbolRow) (pid : String) (e : List Rat) :
    (pyStrip text = "" → EmbeddingEngine.safeText text = "empty") ∧
    (EmbeddingEngine.safeText text).length ≤ 8000 ∧
    (pyStrip text ≠ "" → EmbeddingEngine.safeText text = pyTake text 8000) ∧
    (VoxManager.symbolEmbedText s).length
      ≤ s.type.value.length + 1 + s.name.length + 1 + 200 ∧
    VectorStorage.save_symbols (.ok ()) table [s] pid [e]
      = .ok (table ++ [⟨pid, s.name, s.type.value, s.code, e, some s.file_path⟩]) := by
  refine ⟨?_, ?_, ?_, ?_, ?_⟩
  · intro h
    have hc : (pyStrip text == "") = true := beq_iff_eq.mpr h
    simp only [EmbeddingEngine.safeText, hc]
    rfl
  · show ((if pyStrip text == "" then "empty" else text).toList.take 8000).length
      ≤ 8000
    rw [List.length_take]
    omega
  · intro h
    have hc : (pyStrip text == "") = false := beq_eq_false_iff_ne.mpr h
    simp only [EmbeddingEngine.safeText, hc]
    rfl
  · show (s.type.value ++ " " ++ s.name ++ "\n" ++ pyTake s.code 200).length
      ≤ s.type.value.length + 1 + s.name.length + 1 + 200
    have h200 : (pyTake s.code 200).length ≤ 200 := by
      show (s.code.toList.take 200).length ≤ 200
      rw [List.length_take]
      omega
    simp only [String.length_append]
    have hsp : (" " : String).length = 1 := rfl
    have hnl : ("\n" : String).length = 1 := rfl
    omega
  · rfl

/-- Witness for the amended C7: whitespace-only input becomes `"empty"`,
    non-blank input is passed through (cut at 8000 characters). -/
theorem embedding_preprocessing_amended_witness :
    EmbeddingEngine.safeText "   " = "empty" ∧
    EmbeddingEngine.safeText "hello" = pyTake "hello" 8000 := by
  exact ⟨(embedding_preprocessing_amended "   "
            ⟨"a", .FUNCTION, "a.py", 0, 0, "def a(): pass", none, none, none⟩
            [] "p" []).1 (by decide),
         (embedding_preprocessing_amended "hello"
            ⟨"a", .FUNCTION, "a.py", 0, 0, "def a(): pass", none, none, none⟩
            [] "p" []).2.2.1 (by decide)⟩

/- ---------------------------------------------------------------------------
gatherer.py — the tree-sitter node shape and the two symbol extractors
--------------------------------------------------------------------------- -/

/-- A tree-sitter syntax node as consumed by the parsers: its node type,
    the resolved text of its `name` field (when present), its own source
    text (`code_bytes[start_byte:end_byte]`), its `start_point[0]` /
    `end_point[0]` rows, and its children.  The tree itself is produced by
    the external tree-sitter library. -/
inductive TSNode where
  | mk (ntype : String) (nameField : Option String) (text : String)
       (startLine endLine : Nat) (children : List TSNode)
deriving Repr

def TSNode.ntype : TSNode → String
  | .mk t _ _ _ _ _ => t

def TSNode.nameField : TSNode → Option String
  | .mk _ nf _ _ _ _ => nf

def TSNode.text : TSNode → String
  | .mk _ _ tx _ _ _ => tx

def TSNode.startLine : TSNode → Nat
  | .mk _ _ _ sl _ _ => sl

def TSNode.endLine : TSNode → Nat
  | .mk _ _ _ _ el _ => el

def TSNode.children : TSNode → List TSNode
  | .mk _ _ _ _ _ cs => cs

/-- The `current_name` set by `PythonParser._traverse`
    (`gatherer.py` lines 47-78): the name field of a class or function
    definition node, `None` otherwise. -/
def pyNodeName (n : TSNode) : Option String :=
  if n.ntype == "class_definition" || n.ntype == "function_definition" then
    n.nameField
  else none

/-- The symbol emitted for one node by `PythonParser._traverse`
    (`gatherer.py` lines 51-78): a class node yields `CLASS` (with
    `docstring=""`), a function node yields `METHOD` when some enclosing
    named symbol exists (`parent_name` set) and `FUNCTION` otherwise;
    `parent` is the `parent_name` in scope. -/
def pyNodeSymbol (n : TSNode) (file_path : String) (parent_name : Option String) :
    Option Symbol :=
  if n.ntype == "class_definition" then
    match n.nameField with
    | some nm =>
      some ⟨nm, .CLASS, file_path, n.startLine, n.endLine, n.text,
            parent_name, none, some ""⟩
    | none => none
  else if n.ntype == "function_definition" then
    match n.nameField with
    | some nm =>
      some ⟨nm, (if parent_name.isSome then .METHOD else .FUNCTION), file_path,
            n.startLine, n.endLine, n.text, parent_name, none, none⟩
    | none => none
  else none

mutual

/-- `PythonParser._traverse` (`gatherer.py` lines 47-84): pre-order emission;
    children are visited with `parent_name = current_name or parent_name`. -/
def pyTraverse : TSNode → String → Option String → List Symbol
  | n@(.mk _ _ _ _ _ children), file_path, parent_name =>
    (pyNodeSymbol n file_path parent_name).toList ++
      pyTraverseList children file_path
        ((pyNodeName n).orElse (fun _ => parent_name))

/-- The `for child in node.children` loop of `PythonParser._traverse`. -/
def pyTraverseList : List TSNode → String → Option String → List Symbol
  | [], _, _ => []
  | c :: cs, file_path, parent_name =>
    pyTraverse c file_path parent_name ++ pyTraverseList cs file_path parent_name

end

/-- `PythonParser.parse_text` (`gatherer.py` lines 35-45) applied to an
    already-parsed tree: traverse from the root with no parent. -/
def PythonParser.parse_text (tree : TSNode) (file_path : String) : List Symbol :=
  pyTraverse tree file_path none

/-- Is this one of the class-like node types of
    `TypeScriptParser._traverse` (`gatherer.py` line 112)? -/
def tsClassLike (t : String) : Bool :=
  t == "class_declaration" || t == "interface_declaration" ||
    t == "type_alias_declaration"

/-- Is this one of the function-like node types of
    `TypeScriptParser._traverse` (`gatherer.py` line 126)? -/
def tsFuncLike (t : String) : Bool :=
  t == "function_declaration" || t == "method_definition" ||
    t == "function_expression" || t == "arrow_function"

/-- Per-node step of `TypeScriptParser._traverse` (`gatherer.py` lines
    107-143): returns the emitted symbol (if any) and the `current_name`.
    For a named `interface_declaration` or `type_alias_declaration` the
    source evaluates `SymbolType.OTHER` (line 116) — an enum member that
    does not exist in `models.py` — so the step raises `AttributeError`,
    modelled as the `Except` error. -/
def tsNodeSymbolE (n : TSNode) (file_path : String) (parent_name : Option String) :
    Except String (Option Symbol × Option String) :=
  if tsClassLike n.ntype then
    match n.nameField with
    | some nm =>
      if n.ntype == "class_declaration" then
        .ok (some ⟨nm, .CLASS, file_path, n.startLine, n.endLine, n.text,
                   parent_name, none, none⟩, some nm)
      else .error "AttributeError: type object SymbolType has no attribute OTHER"
    | none => .ok (none, none)
  else if tsFuncLike n.ntype then
    match n.nameField with
    | some nm =>
      .ok (some ⟨nm, (if parent_name.isSome then .METHOD else .FUNCTION),
                 file_path, n.startLine, n.endLine, n.text, parent_name,
                 none, none⟩, some nm)
    | none => .ok (none, none)
  else .ok (none, none)

mutual

/-- `TypeScriptParser._traverse` (`gatherer.py` lines 107-149) with the
    `AttributeError` propagating — `parse_text` only guards the
    `parser.parse` call (line 98-101), not the traversal, so the error
    escapes `parse_text`. -/
def tsTraverseE : TSNode → String → Option String → Except String (List Symbol)
  | n@(.mk _ _ _ _ _ children), file_path, parent_name =>
    match tsNodeSymbolE n file_path parent_name with
    | .error e => .error e
    | .ok (sym, cur) =>
      match tsTraverseListE children file_path
          (cur.orElse (fun _ => parent_name)) with
      | .error e => .error e
      | .ok rest => .ok (sym.toList ++ rest)

/-- The `for child in node.children` loop of `TypeScriptParser._traverse`. -/
def tsTraverseListE : List TSNode → String → Option String →
    Except String (List Symbol)
  | [], _, _ => .ok []
  | c :: cs, file_path, parent_name =>
    match tsTraverseE c file_path parent_name with
    | .error e => .error e
    | .ok s1 =>
      match tsTraverseListE cs file_path parent_name with
      | .error e => .error e
      | .ok s2 => .ok (s1 ++ s2)

end

mutual

/-- Does the tree contain a named `interface_declaration` or
    `type_alias_declaration` node (the nodes whose processing evaluates the
    missing `SymbolType.OTHER`)? -/
def tsHasInterfaceNode : TSNode → Bool
  | .mk t nf _ _ _ children =>
    ((t == "interface_declaration" || t == "type_alias_declaration") &&
      nf.isSome) || tsHasInterfaceNodeList children

/-- List version of `tsHasInterfaceNode`. -/
def tsHasInterfaceNodeList : List TSNode → Bool
  | [] => false
  | c :: cs => tsHasInterfaceNode c || tsHasInterfaceNodeList cs

end

/- ---------------------------------------------------------------------------
gatherer.py — Gatherer.scan_project
--------------------------------------------------------------------------- -/

/-- `gatherer.py` lines 16-20: the ignore-set of directory names. -/
def IGNORE_DIRS : List String :=
  ["node_modules", ".next", "dist", "build", ".vercel",
   "venv", ".venv", "__pycache__", ".git", ".github", ".vscode", "tests",
   "staticfiles", "static", "vendor", "public", "assets", "locales"]

/-- `os.path.splitext(p)[1]`: the extension starting at the last dot,
    empty when there is no dot or only leading dots precede it
    (posixpath semantics, e.g. `".git"` has extension `""`). -/
def extOf (p : String) : String :=
  let cs := p.toList
  let tailLen := (cs.reverse.takeWhile (fun c => c != '.')).length
  if tailLen == cs.length then ""
  else
    let dotIdx := cs.length - tailLen - 1
    if (cs.take dotIdx).any (fun c => c != '.') then String.mk (cs.drop dotIdx)
    else ""

/-- `os.path.splitext(filename)[1].lower()` (`gatherer.py` line 182). -/
def extLower (filename : String) : String :=
  String.mk (lowerChars (extOf filename))

/-- A metadata value of an indexable item: the symbol metadata carries
    strings and line numbers, the markdown metadata carries header strings. -/
inductive MetaVal where
  | s (v : String)
  | n (v : Nat)
deriving Repr, DecidableEq

/-- An indexable item as produced by `Gatherer.scan_project`
    (`gatherer.py` lines 167-171: dict with content, file_path, type,
    metadata). -/
structure Item where
  content : String
  file_path : String
  type : String
  metadata : List (String × MetaVal)
deriving Repr, DecidableEq

/-- One document piece returned by the external markdown header splitter
    (`langchain` `MarkdownHeaderTextSplitter.split_text`). -/
structure MDDoc where
  page_content : String
  metadata : List (String × MetaVal)
deriving Repr, DecidableEq

/-- The item built for one symbol (`gatherer.py` lines 198-215). -/
def symbolItem (relative_path : String) (s : Symbol) : Item :=
  { content := "Symbol: " ++ s.name ++ "\nType: " ++ s.type.value ++
      "\nCode:\n" ++ s.code
    file_path := relative_path
    type := "symbol"
    metadata := [("name", .s s.name), ("symbol_type", .s s.type.value),
                 ("start_line", .n s.start_line), ("end_line", .n s.end_line)] }

/-- The code-file extensions dispatched to a symbol parser
    (`gatherer.py` line 187). -/
def codeExts : List String := [".py", ".ts", ".tsx", ".js", ".jsx"]

/-- The body of the per-file `try` block of `Gatherer.scan_project`
    (`gatherer.py` lines 186-239): dispatch on the extension — parse code
    files into symbol items (`.py` via the Python parser, the rest via the
    TypeScript parser), split `.md` files into markdown chunk items
    (header split first, then the recursive splitter for chunks over 1000
    characters), skip any other extension.  `mdSplitE` and `recSplit` are
    the external langchain splitters; `tree` is the tree-sitter parse of
    the file's text.  An `.error` is an exception escaping the `try` body. -/
def fileItemsE (mdSplitE : String → Except String (List MDDoc))
    (recSplit : String → List String)
    (relative_path fname text : String) (tree : TSNode) :
    Except String (List Item) :=
  if codeExts.contains (extLower fname) then
    match (if extLower fname == ".py" then
             Except.ok (PythonParser.parse_text tree relative_path)
           else tsTraverseE tree relative_path none) with
    | .error e => .error e
    | .ok syms => .ok (syms.map (symbolItem relative_path))
  else if extLower fname == ".md" then
    match mdSplitE text with
    | .error e => .error e
    | .ok docs =>
      .ok ((docs.map (fun doc =>
        (if doc.page_content.length > 1000 then recSplit doc.page_content
         else [doc.page_content]).map (fun chunk =>
          { content := chunk
            file_path := relative_path
            type := "markdown"
            metadata := doc.metadata }))).flatten)
  else .ok []

/-- The per-file handling of `Gatherer.scan_project` with its
    `except Exception: pass` recovery (`gatherer.py` lines 217 and 239):
    a failing file contributes no items and the scan continues. -/
def fileItems (mdSplitE : String → Except String (List MDDoc))
    (recSplit : String → List String)
    (relative_path fname text : String) (tree : TSNode) : List Item :=
  match fileItemsE mdSplitE recSplit relative_path fname text tree with
  | .error _ => []
  | .ok l => l

/-- A filesystem tree entry: a file (with its raw text and its tree-sitter
    parse) or a directory. -/
inductive FT where
  | file (name : String) (text : String) (tree : TSNode)
  | dir (name : String) (entries : List FT)
deriving Repr

/-- `os.path.relpath(os.path.join(dirpath, f), abs_root)` composition:
    paths relative to the scan root are joined with `/`. -/
def relJoin (relDir fname : String) : String :=
  if relDir == "" then fname else relDir ++ "/" ++ fname

/-- The files of one directory listing, processed in order
    (`gatherer.py` lines 181-239); `dirpath` is the absolute path of the
    directory — when it contains `".cursor"` the whole file loop is skipped
    (`continue`, line 179). -/
def walkFilesOnce (mdSplitE : String → Except String (List MDDoc))
    (recSplit : String → List String) (dirpath relDir : String) :
    List FT → List Item
  | [] => []
  | .file nm tx tr :: rest =>
    (if strContainsSub dirpath ".cursor" then []
     else fileItems mdSplitE recSplit (relJoin relDir nm) nm tx tr) ++
      walkFilesOnce mdSplitE recSplit dirpath relDir rest
  | .dir _ _ :: rest => walkFilesOnce mdSplitE recSplit dirpath relDir rest

mutual

/-- The recursive descent of `os.walk` after the in-place prune
    `dirnames[:] = [d for d in dirnames if d not in IGNORE_DIRS]`
    (`gatherer.py` line 178): the subdirectory entries of one listing,
    visited in order. -/
def walkSubdirs (mdSplitE : String → Except String (List MDDoc))
    (recSplit : String → List String) (dirpath relDir : String) :
    List FT → List Item
  | [] => []
  | e :: rest =>
    walkEntrySubdir mdSplitE recSplit dirpath relDir e ++
      walkSubdirs mdSplitE recSplit dirpath relDir rest

/-- One entry of the descent: files contribute nothing here (they were
    handled by `walkFilesOnce`), a pruned directory's whole subtree is never
    visited, and a kept subdirectory first contributes its own files, then
    its subdirectories — `os.walk` top-down order. -/
def walkEntrySubdir (mdSplitE : String → Except String (List MDDoc))
    (recSplit : String → List String) (dirpath relDir : String) :
    FT → List Item
  | .file _ _ _ => []
  | .dir nm es =>
    if IGNORE_DIRS.contains nm then []
    else
      walkFilesOnce mdSplitE recSplit (dirpath ++ "/" ++ nm)
          (relJoin relDir nm) es ++
        walkSubdirs mdSplitE recSplit (dirpath ++ "/" ++ nm)
          (relJoin relDir nm) es

end

namespace Gatherer

/-- `Gatherer.scan_project` (`gatherer.py` lines 167-242): walk the absolute
    root (`abspathF` is `os.path.abspath`), files of each directory before
    its subdirectories, returning ONE flat list of item dicts.  `entries`
    is the directory listing of the root. -/
def scan_project (mdSplitE : String → Except String (List MDDoc))
    (recSplit : String → List String) (abspathF : String → String)
    (root_path : String) (entries : List FT) : List Item :=
  walkFilesOnce mdSplitE recSplit (abspathF root_path) "" entries ++
    walkSubdirs mdSplitE recSplit (abspathF root_path) "" entries

end Gatherer

/- ---------------------------------------------------------------------------
Claim C6 — Python symbol extraction: kinds, parents, pre-order
--------------------------------------------------------------------------- -/

/-- The tree-sitter node of `def think(self): pass` inside class `Agent`. -/
def thinkNode : TSNode :=
  .mk "function_definition" (some "think") "def think(self):\n        pass" 2 3
    [.mk "identifier" none "think" 2 2 [],
     .mk "parameters" none "(self)" 2 2 [],
     .mk "block" none "pass" 3 3 [.mk "pass_statement" none "pass" 3 3 []]]

/-- The tree-sitter node of `class Agent:` with its method `think`. -/
def agentClassNode : TSNode :=
  .mk "class_definition" (some "Agent")
    "class Agent:\n    def think(self):\n        pass" 1 3
    [.mk "identifier" none "Agent" 1 1 [],
     .mk "block" none "def think(self):\n        pass" 2 3 [thinkNode]]

/-- The tree-sitter node of the top-level `def run_system(): pass`. -/
def runSystemNode : TSNode :=
  .mk "function_definition" (some "run_system") "def run_system():\n    pass" 5 6
    [.mk "identifier" none "run_system" 5 5 [],
     .mk "parameters" none "()" 5 5 [],
     .mk "block" none "pass" 6 6 [.mk "pass_statement" none "pass" 6 6 []]]

/-- The module tree of the `Agent` / `think` / `run_system` source of the
    test suite (`tests/test_gatherer.py` and spec section 8). -/
def agentModuleTree : TSNode :=
  .mk "module" none
    "class Agent:\n    def think(self):\n        pass\n\ndef run_system():\n    pass"
    0 6 [agentClassNode, runSystemNode]

/-- Claim C6: parsing the `Agent`/`think`/`run_system` source yields exactly
    three symbols in pre-order — `Agent` (class, no parent), `think` (method,
    parent `Agent`), `run_system` (function, no parent); and in general a
    named function node traversed under some enclosing named symbol becomes a
    METHOD with that symbol as parent, a named function node with no
    enclosing named symbol becomes a FUNCTION with no parent, and a named
    class node passes its own name down to its children as their parent. -/
theorem python_parser_preorder
    (n : TSNode) (fp : String) (pn : Option String) (nm p : String) :
    ((PythonParser.parse_text agentModuleTree "test.py").map
        (fun s => (s.name, s.type, s.parent))
      = [("Agent", SymbolType.CLASS, none),
         ("think", SymbolType.METHOD, some "Agent"),
         ("run_system", SymbolType.FUNCTION, none)]) ∧
    (n.ntype = "function_definition" → n.nameField = some nm →
      (pyTraverse n fp (some p)).head?
        = some ⟨nm, .METHOD, fp, n.startLine, n.endLine, n.text,
                some p, none, none⟩) ∧
    (n.ntype = "function_definition" → n.nameField = some nm →
      (pyTraverse n fp none).head?
        = some ⟨nm, .FUNCTION, fp, n.startLine, n.endLine, n.text,
                none, none, none⟩) ∧
    (n.ntype = "class_definition" → n.nameField = some nm →
      pyTraverse n fp pn
        = (pyNodeSymbol n fp pn).toList ++
            pyTraverseList n.children fp (some nm)) := by
  refine ⟨rfl, ?_, ?_, ?_⟩
  · intro h1 h2
    obtain ⟨t, nf, tx, sl, el, cs⟩ := n
    simp only [TSNode.ntype] at h1
    simp only [TSNode.nameField] at h2
    subst h1; subst h2
    rfl
  · intro h1 h2
    obtain ⟨t, nf, tx, sl, el, cs⟩ := n
    simp only [TSNode.ntype] at h1
    simp only [TSNode.nameField] at h2
    subst h1; subst h2
    rfl
  · intro h1 h2
    obtain ⟨t, nf, tx, sl, el, cs⟩ := n
    simp only [TSNode.ntype] at h1
    simp only [TSNode.nameField] at h2
    subst h1; subst h2
    rfl

/-- Witness for C6: the general method/function clauses evaluated at the
    concrete `run_system` node. -/
theorem python_parser_preorder_witness :
    (pyTraverse runSystemNode "t.py" (some "Outer")).head?
      = some ⟨"run_system", .METHOD, "t.py", 5, 6, "def run_system():\n    pass",
              some "Outer", none, none⟩ ∧
    (pyTraverse runSystemNode "t.py" none).head?
      = some ⟨"run_system", .FUNCTION, "t.py", 5, 6, "def run_system():\n    pass",
              none, none, none⟩ :=
  ⟨(python_parser_preorder runSystemNode "t.py" none "run_system" "Outer").2.1
      rfl rfl,
   (python_parser_preorder runSystemNode "t.py" none "run_system" "Outer").2.2.1
      rfl rfl⟩

/- ---------------------------------------------------------------------------
Claim C9 — scan_project swallows per-file errors (SymbolType.OTHER)
--------------------------------------------------------------------------- -/

mutual

/-- Any tree containing a named interface/type-alias node makes the
    TypeScript traversal raise (the missing `SymbolType.OTHER`). -/
theorem tsTraverseE_error_of_interface (n : TSNode) (fp : String)
    (pn : Option String) (h : tsHasInterfaceNode n = true) :
    ∃ e, tsTraverseE n fp pn = Except.error e := by
  cases n with
  | mk t nf tx sl el children =>
    rw [tsHasInterfaceNode] at h
    simp only [Bool.or_eq_true, Bool.and_eq_true, beq_iff_eq,
      Option.isSome_iff_exists] at h
    rcases h with ⟨ht, nm, hnf⟩ | hrec
    · subst hnf
      rcases ht with ht | ht <;> subst ht <;> exact ⟨_, rfl⟩
    · cases hstep : tsNodeSymbolE (.mk t nf tx sl el children) fp pn with
      | error e =>
        exact ⟨e, by simp only [tsTraverseE, hstep]⟩
      | ok pr =>
        obtain ⟨sym, cur⟩ := pr
        obtain ⟨e, hE⟩ := tsTraverseListE_error_of_interface children fp
          (cur.orElse (fun _ => pn)) hrec
        exact ⟨e, by simp only [tsTraverseE, hstep, hE]⟩

/-- List version of `tsTraverseE_error_of_interface`. -/
theorem tsTraverseListE_error_of_interface (l : List TSNode) (fp : String)
    (pn : Option String) (h : tsHasInterfaceNodeList l = true) :
    ∃ e, tsTraverseListE l fp pn = Except.error e := by
  cases l with
  | nil => simp [tsHasInterfaceNodeList] at h
  | cons c cs =>
    rw [tsHasInterfaceNodeList] at h
    simp only [Bool.or_eq_true] at h
    rcases h with hc | hcs
    · obtain ⟨e, hE⟩ := tsTraverseE_error_of_interface c fp pn hc
      exact ⟨e, by simp only [tsTraverseListE, hE]⟩
    · cases hres : tsTraverseE c fp pn with
      | error e => exact ⟨e, by simp only [tsTraverseListE, hres]⟩
      | ok s1 =>
        obtain ⟨e, hE⟩ := tsTraverseListE_error_of_interface cs fp pn hcs
        exact ⟨e, by simp only [tsTraverseListE, hres, hE]⟩

end

/-- `walkFilesOnce` distributes over directory-listing concatenation. -/
theorem walkFilesOnce_append (mdSplitE : String → Except String (List MDDoc))
    (recSplit : String → List String) (dp rd : String) (l1 l2 : List FT) :
    walkFilesOnce mdSplitE recSplit dp rd (l1 ++ l2)
      = walkFilesOnce mdSplitE recSplit dp rd l1 ++
          walkFilesOnce mdSplitE recSplit dp rd l2 := by
  induction l1 with
  | nil => rfl
  | cons e rest ih =>
    cases e with
    | file nm tx tr => simp [walkFilesOnce, ih, List.append_assoc]
    | dir nm es => simp [walkFilesOnce, ih]

/-- `walkSubdirs` distributes over directory-listing concatenation. -/
theorem walkSubdirs_append (mdSplitE : String → Except String (List MDDoc))
    (recSplit : String → List String) (dp rd : String) (l1 l2 : List FT) :
    walkSubdirs mdSplitE recSplit dp rd (l1 ++ l2)
      = walkSubdirs mdSplitE recSplit dp rd l1 ++
          walkSubdirs mdSplitE recSplit dp rd l2 := by
  induction l1 with
  | nil => rfl
  | cons e rest ih => simp [walkSubdirs, ih]

/-- For a `.ts`/`.tsx` file whose tree holds a named interface or type-alias
    declaration, the per-file processing raises. -/
theorem fileItemsE_ts_interface_error
    (mdSplitE : String → Except String (List MDDoc))
    (recSplit : String → List String) (rp fname tx : String) (tree : TSNode)
    (hext : extLower fname = ".ts" ∨ extLower fname = ".tsx")
    (hbad : tsHasInterfaceNode tree = true) :
    ∃ e, fileItemsE mdSplitE recSplit rp fname tx tree = Except.error e := by
  obtain ⟨e, hE⟩ := tsTraverseE_error_of_interface tree rp none hbad
  rcases hext with hext | hext <;>
    (unfold fileItemsE; rw [hext]; simp only [hE]; exact ⟨e, rfl⟩)

/-- Claim C9: `scan_project` never propagates an exception raised while
    processing an individual file.  For a `.ts`/`.tsx` file containing a
    named interface or type-alias declaration, the traversal raises the
    internal `AttributeError` caused by the undefined `SymbolType.OTHER`
    member, the per-file handler swallows it, the file contributes zero
    items, and the scan of any directory listing containing that file is
    exactly the scan of the listing without it. -/
theorem scan_swallows_per_file_errors
    (mdSplitE : String → Except String (List MDDoc))
    (recSplit : String → List String)
    (abspathF : String → String) (root : String) (pre post : List FT)
    (rp fname tx : String) (tree : TSNode)
    (hext : extLower fname = ".ts" ∨ extLower fname = ".tsx")
    (hbad : tsHasInterfaceNode tree = true) :
    (∃ e, fileItemsE mdSplitE recSplit rp fname tx tree = Except.error e) ∧
    fileItems mdSplitE recSplit rp fname tx tree = [] ∧
    Gatherer.scan_project mdSplitE recSplit abspathF root
        (pre ++ FT.file fname tx tree :: post)
      = Gatherer.scan_project mdSplitE recSplit abspathF root (pre ++ post) := by
  have hzero : ∀ rp2, fileItems mdSplitE recSplit rp2 fname tx tree = [] := by
    intro rp2
    obtain ⟨e, hE⟩ := fileItemsE_ts_interface_error mdSplitE recSplit rp2
      fname tx tree hext hbad
    simp only [fileItems, hE]
  refine ⟨fileItemsE_ts_interface_error mdSplitE recSplit rp fname tx tree
      hext hbad, hzero rp, ?_⟩
  unfold Gatherer.scan_project
  have hfiles : ∀ dp rd (l2 : List FT),
      walkFilesOnce mdSplitE recSplit dp rd (FT.file fname tx tree :: l2)
        = walkFilesOnce mdSplitE recSplit dp rd l2 := by
    intro dp rd l2
    simp only [walkFilesOnce, hzero, ite_self, List.nil_append]
  have hsubs : ∀ dp rd (l2 : List FT),
      walkSubdirs mdSplitE recSplit dp rd (FT.file fname tx tree :: l2)
        = walkSubdirs mdSplitE recSplit dp rd l2 := by
    intro dp rd l2
    simp only [walkSubdirs, walkEntrySubdir, List.nil_append]
  rw [walkFilesOnce_append, walkFilesOnce_append, walkSubdirs_append,
    walkSubdirs_append, hfiles, hsubs]

/-- Trivial markdown splitter instance for concrete scans. -/
def mdSplit0 : String → Except String (List MDDoc) := fun _ => .ok []

/-- Trivial recursive splitter instance for concrete scans. -/
def recSplit0 : String → List String := fun _ => []

/-- Tree of a `.tsx` file declaring `interface UserProps`. -/
def userPropsTree : TSNode :=
  .mk "program" none "interface UserProps ..." 0 3
    [.mk "interface_declaration" (some "UserProps")
      "interface UserProps ..." 0 2 []]

/-- Tree of `good.py` containing the single function `ok`. -/
def goodPyTree : TSNode :=
  .mk "module" none "def ok(): pass" 0 0
    [.mk "function_definition" (some "ok") "def ok(): pass" 0 0
      [.mk "identifier" none "ok" 0 0 []]]

/-- Witness for C9: a `.tsx` file declaring `interface UserProps` contributes
    zero items, and scanning it alongside `good.py` gives exactly the scan of
    `good.py` alone. -/
theorem scan_swallows_per_file_errors_witness :
    fileItems mdSplit0 recSplit0 "comp.tsx" "comp.tsx" "interface UserProps ..."
        userPropsTree = [] ∧
    Gatherer.scan_project mdSplit0 recSplit0 (fun s => s) "/r"
        [FT.file "comp.tsx" "interface UserProps ..." userPropsTree,
         FT.file "good.py" "def ok(): pass" goodPyTree]
      = Gatherer.scan_project mdSplit0 recSplit0 (fun s => s) "/r"
          [FT.file "good.py" "def ok(): pass" goodPyTree] := by
  have h := scan_swallows_per_file_errors mdSplit0 recSplit0 (fun s => s) "/r"
    [] [FT.file "good.py" "def ok(): pass" goodPyTree]
    "comp.tsx" "comp.tsx" "interface UserProps ..." userPropsTree
    (Or.inr rfl) (by decide)
  exact ⟨h.2.1, h.2.2⟩

/- ---------------------------------------------------------------------------
Claim C8 — directory skipping during the scan
--------------------------------------------------------------------------- -/

/-- Split a character list at `/`. -/
def splitSlashAux : List Char → List (List Char)
  | [] => [[]]
  | c :: rest =>
    if c = '/' then [] :: splitSlashAux rest
    else
      match splitSlashAux rest with
      | [] => [[c]]
      | g :: gs => (c :: g) :: gs

/-- The slash-separated components of a path. -/
def splitSlash (s : String) : List String :=
  (splitSlashAux s.toList).map String.mk

theorem splitSlashAux_ne_nil (l : List Char) : splitSlashAux l ≠ [] := by
  cases l with
  | nil => simp [splitSlashAux]
  | cons c rest =>
    by_cases hc : c = '/'
    · simp [splitSlashAux, hc]
    · simp only [splitSlashAux, hc, if_false]
      cases hsp : splitSlashAux rest <;> simp

theorem splitSlashAux_append (xs ys : List Char) :
    splitSlashAux (xs ++ '/' :: ys) = splitSlashAux xs ++ splitSlashAux ys := by
  induction xs with
  | nil => simp [splitSlashAux]
  | cons c xs ih =>
    by_cases hc : c = '/'
    · subst hc
      simp [splitSlashAux, ih]
    · simp only [List.cons_append, splitSlashAux, hc, if_false, List.append_eq]
      rw [ih]
      cases hsp : splitSlashAux xs with
      | nil => exact absurd hsp (splitSlashAux_ne_nil xs)
      | cons g gs => simp

theorem splitSlashAux_no_slash (l : List Char)
    (h : l.all (fun ch => ch != '/') = true) : splitSlashAux l = [l] := by
  induction l with
  | nil => rfl
  | cons c rest ih =>
    simp only [List.all_cons, Bool.and_eq_true, bne_iff_ne] at h
    obtain ⟨hc, hrest⟩ := h
    simp only [splitSlashAux, hc, if_false,
      ih (by simpa using hrest)]

/-- Splitting a `relJoin` appends the file name as one extra component. -/
theorem splitSlash_relJoin (relDir fname : String)
    (h : fname.toList.all (fun ch => ch != '/') = true) :
    splitSlash (relJoin relDir fname)
      = (if relDir == "" then [] else splitSlash relDir) ++ [fname] := by
  unfold relJoin
  cases hr : (relDir == "") with
  | true =>
    simp only [hr, if_true, splitSlash, splitSlashAux_no_slash _ h, List.map,
      List.nil_append]
    rfl
  | false =>
    simp only [hr, Bool.false_eq_true, if_false, splitSlash]
    have htl : (relDir ++ "/" ++ fname).toList
        = relDir.toList ++ '/' :: fname.toList := by
      simp [String.toList]
    rw [htl, splitSlashAux_append, splitSlashAux_no_slash _ h]
    simp

/-- Every item produced for one file carries the `relative_path` it was given
    as its `file_path`, and only recognized extensions produce items. -/
theorem fileItems_path_ext (mdS : String → Except String (List MDDoc))
    (recS : String → List String) (rp fname tx : String) (tr : TSNode)
    (item : Item) (h : item ∈ fileItems mdS recS rp fname tx tr) :
    item.file_path = rp ∧
      (codeExts.contains (extLower fname) || (extLower fname == ".md"))
        = true := by
  unfold fileItems at h
  cases hE : fileItemsE mdS recS rp fname tx tr with
  | error e => rw [hE] at h; cases h
  | ok l =>
    rw [hE] at h
    unfold fileItemsE at hE
    split at hE
    · next h1 =>
      split at hE
      · cases hE
      · next syms hsyms =>
        cases hE
        obtain ⟨s, _, rfl⟩ := List.mem_map.mp h
        exact ⟨rfl, by rw [h1]; rfl⟩
    · next h1 =>
      split at hE
      · next h2 =>
        split at hE
        · cases hE
        · next docs hdocs =>
          cases hE
          simp only [List.mem_flatten, List.mem_map] at h
          obtain ⟨l2, ⟨doc, _, rfl⟩, hin⟩ := h
          obtain ⟨chunk, _, rfl⟩ := List.mem_map.mp hin
          exact ⟨rfl, by rw [h2, Bool.or_true]⟩
      · next h2 =>
        cases hE
        cases h

/-- No ignored directory name has a recognized extension (they are directory
    names like `node_modules` or `.git`, whose posix extension is empty). -/
theorem ignore_dirs_have_no_ext :
    ∀ fname ∈ IGNORE_DIRS,
      (codeExts.contains (extLower fname) || (extLower fname == ".md"))
        = false := by decide

/-- Hence a file that produced an item is never named like an ignored
    directory. -/
theorem fileItems_fname_not_ignored (mdS : String → Except String (List MDDoc))
    (recS : String → List String) (rp fname tx : String) (tr : TSNode)
    (item : Item) (h : item ∈ fileItems mdS recS rp fname tx tr) :
    fname ∉ IGNORE_DIRS := by
  intro hmem
  have h1 := (fileItems_path_ext mdS recS rp fname tx tr item h).2
  have h2 := ignore_dirs_have_no_ext fname hmem
  rw [h1] at h2
  cases h2

mutual

/-- Slash-free entry names, one entry. -/
def ftNamesClean : FT → Bool
  | .file nm _ _ => nm.toList.all (fun ch => ch != '/')
  | .dir nm es => nm.toList.all (fun ch => ch != '/') && ftNamesCleanList es

/-- Slash-free entry names, a listing. -/
def ftNamesCleanList : List FT → Bool
  | [] => true
  | e :: es => ftNamesClean e && ftNamesCleanList es

end

/-- Components invariant: every component of `rd` is outside the
    ignore-set. -/
def relDirOK (rd : String) : Prop :=
  ∀ c ∈ splitSlash rd, c ∉ IGNORE_DIRS

theorem relDirOK_join (rd nm : String) (hrd : relDirOK rd)
    (hslash : nm.toList.all (fun ch => ch != '/') = true)
    (hnm : nm ∉ IGNORE_DIRS) :
    relDirOK (relJoin rd nm) := by
  intro c hc
  rw [splitSlash_relJoin rd nm hslash] at hc
  rcases List.mem_append.mp hc with hc | hc
  · split at hc
    · cases hc
    · exact hrd c hc
  · rw [List.mem_singleton.mp hc]
    exact hnm

theorem walkFilesOnce_clean (mdS : String → Except String (List MDDoc))
    (recS : String → List String) (dp rd : String) (entries : List FT)
    (hnames : ftNamesCleanList entries = true) (hrd : relDirOK rd) :
    ∀ item ∈ walkFilesOnce mdS recS dp rd entries,
      ∀ c ∈ splitSlash item.file_path, c ∉ IGNORE_DIRS := by
  induction entries with
  | nil => intro item h; cases h
  | cons e rest ih =>
    rw [ftNamesCleanList, Bool.and_eq_true] at hnames
    obtain ⟨hname, hrest⟩ := hnames
    intro item h
    cases e with
    | file nm tx tr =>
      rw [walkFilesOnce] at h
      rcases List.mem_append.mp h with h | h
      · split at h
        · cases h
        · have hpath := (fileItems_path_ext mdS recS _ nm tx tr item h).1
          have hnm := fileItems_fname_not_ignored mdS recS _ nm tx tr item h
          rw [hpath]
          rw [ftNamesClean] at hname
          intro c hc
          exact relDirOK_join rd nm hrd hname hnm c hc
      · exact ih hrest item h
    | dir nm es =>
      rw [walkFilesOnce] at h
      exact ih hrest item h

mutual

theorem walkSubdirs_clean (mdS : String → Except String (List MDDoc))
    (recS : String → List String) (dp rd : String) (entries : List FT)
    (hnames : ftNamesCleanList entries = true) (hrd : relDirOK rd) :
    ∀ item ∈ walkSubdirs mdS recS dp rd entries,
      ∀ c ∈ splitSlash item.file_path, c ∉ IGNORE_DIRS := by
  cases entries with
  | nil => intro item h; cases h
  | cons e rest =>
    rw [ftNamesCleanList, Bool.and_eq_true] at hnames
    obtain ⟨hname, hrest⟩ := hnames
    intro item h
    rw [walkSubdirs] at h
    rcases List.mem_append.mp h with h | h
    · exact walkEntrySubdir_clean mdS recS dp rd e hname hrd item h
    · exact walkSubdirs_clean mdS recS dp rd rest hrest hrd item h

theorem walkEntrySubdir_clean (mdS : String → Except String (List MDDoc))
    (recS : String → List String) (dp rd : String) (e : FT)
    (hname : ftNamesClean e = true) (hrd : relDirOK rd) :
    ∀ item ∈ walkEntrySubdir mdS recS dp rd e,
      ∀ c ∈ splitSlash item.file_path, c ∉ IGNORE_DIRS := by
  cases e with
  | file nm tx tr => intro item h; cases h
  | dir nm es =>
    rw [ftNamesClean, Bool.and_eq_true] at hname
    obtain ⟨hslash, hes⟩ := hname
    intro item h
    rw [walkEntrySubdir] at h
    split at h
    · cases h
    · next hig =>
      have hnm : nm ∉ IGNORE_DIRS := by
        intro hmem
        exact hig (List.elem_eq_true_of_mem hmem)
      have hrd2 : relDirOK (relJoin rd nm) :=
        relDirOK_join rd nm hrd hslash hnm
      rcases List.mem_append.mp h with h | h
      · exact walkFilesOnce_clean mdS recS _ _ es hes hrd2 item h
      · exact walkSubdirs_clean mdS recS _ _ es hes hrd2 item h

end

/-- Tree of `node_modules/bad.py` containing the single function `bad`. -/
def badPyTree : TSNode :=
  .mk "module" none "def bad(): pass" 0 0
    [.mk "function_definition" (some "bad") "def bad(): pass" 0 0
      [.mk "identifier" none "bad" 0 0 []]]

/-- Tree of `.obsidian/x.py` containing the single function `hid`. -/
def hiddenPyTree : TSNode :=
  .mk "module" none "def hid(): pass" 0 0
    [.mk "function_definition" (some "hid") "def hid(): pass" 0 0
      [.mk "identifier" none "hid" 0 0 []]]

/-- A project whose only entry is a dot-directory with a Python file. -/
def obsidianEntries : List FT :=
  [FT.dir ".obsidian" [FT.file "x.py" "def hid(): pass" hiddenPyTree]]

/-- Claim C8 counterexample: `Gatherer.scan_project` does NOT skip every
    directory whose name starts with the reserved marker character `.` —
    the directory `.obsidian` (not in the ignore-set, and not containing
    `.cursor` in its path) is descended into and its file yields an item.
    (Only `core/engine.py`'s `VoxEngine.index_project` prunes every
    dot-prefixed directory.) -/
theorem dot_directory_is_scanned :
    (".obsidian" ∉ IGNORE_DIRS) ∧
    (Gatherer.scan_project mdSplit0 recSplit0 (fun s => s) "/proj"
        obsidianEntries).map (fun it => it.file_path)
      = [".obsidian/x.py"] := by
  exact ⟨by decide, by decide⟩

/-- The project listing `node_modules/bad.py` + `good.py` of the spec's
    testable property. -/
def nmEntries : List FT :=
  [FT.dir "node_modules" [FT.file "bad.py" "def bad(): pass" badPyTree],
   FT.file "good.py" "def ok(): pass" goodPyTree]

/-- Claim C8 (amended): `Gatherer.scan_project` skips every directory of the
    fixed ignore-set, and the skip covers the whole subtree: scanning
    `node_modules/bad.py` + `good.py` yields exactly the `good.py` item, and
    in general (for slash-free entry names) no produced item's `file_path`
    has an ignore-set name among its slash-separated components.
    Dot-prefixed directories outside the ignore-set are NOT skipped (see the
    counterexample); only `core/engine.py` prunes those. -/
theorem scan_skips_ignored_dirs
    (mdS : String → Except String (List MDDoc)) (recS : String → List String)
    (abspathF : String → String) (root : String) (entries : List FT)
    (item : Item) (c : String)
    (hnames : ftNamesCleanList entries = true)
    (hitem : item ∈ Gatherer.scan_project mdS recS abspathF root entries)
    (hc : c ∈ splitSlash item.file_path) :
    (Gatherer.scan_project mdSplit0 recSplit0 (fun s => s) "/proj" nmEntries
      = [symbolItem "good.py"
          ⟨"ok", .FUNCTION, "good.py", 0, 0, "def ok(): pass", none, none, none⟩]) ∧
    c ∉ IGNORE_DIRS := by
  constructor
  · decide
  · have hrd : relDirOK "" := by
      intro c2 hc2
      simp only [splitSlash, String.toList, splitSlashAux, List.map,
        List.mem_singleton] at hc2
      subst hc2
      decide
    unfold Gatherer.scan_project at hitem
    rcases List.mem_append.mp hitem with h | h
    · exact walkFilesOnce_clean mdS recS _ _ entries hnames hrd item h c hc
    · exact walkSubdirs_clean mdS recS _ _ entries hnames hrd item h c hc

/-- Witness for the amended C8 at the concrete `node_modules` listing. -/
theorem scan_skips_ignored_dirs_witness :
    (Gatherer.scan_project mdSplit0 recSplit0 (fun s => s) "/proj" nmEntries
      = [symbolItem "good.py"
          ⟨"ok", .FUNCTION, "good.py", 0, 0, "def ok(): pass", none, none, none⟩]) ∧
    "good.py" ∉ IGNORE_DIRS := by
  exact scan_skips_ignored_dirs mdSplit0 recSplit0 (fun s => s) "/proj" nmEntries
    (symbolItem "good.py"
      ⟨"ok", .FUNCTION, "good.py", 0, 0, "def ok(): pass", none, none, none⟩)
    "good.py" (by decide) (by decide) (by decide)

/- ---------------------------------------------------------------------------
manager.py — index_build (and the scan_project return-shape mismatch)
--------------------------------------------------------------------------- -/

namespace VoxManager

/-- State effect of `get_project_tree` (`manager.py` lines 55-76): return the
    cached `file_tree` when the cached value is truthy (non-empty), else
    build the tree string (`treeStr`, from `os.walk`) and upsert it into the
    cache. -/
def get_project_tree (treeStr : String) (st : VoxState) (project_id : String) :
    VoxState :=
  match CacheLayer.get st.cache project_id "file_tree" with
  | some v =>
    if v == "" then
      { st with cache := CacheLayer.set st.cache project_id "file_tree" treeStr }
    else st
  | none =>
    { st with cache := CacheLayer.set st.cache project_id "file_tree" treeStr }

theorem get_project_tree_vec (treeStr : String) (st : VoxState)
    (project_id : String) :
    (get_project_tree treeStr st project_id).vec = st.vec := by
  unfold get_project_tree
  split
  · split <;> rfl
  · rfl

theorem get_project_tree_loc (treeStr : String) (st : VoxState)
    (project_id : String) :
    (get_project_tree treeStr st project_id).loc = st.loc := by
  unfold get_project_tree
  split
  · split <;> rfl
  · rfl

/-- `manager.py` lines 79-128: `index_build`.  The returned `Option String`
    is the exception escaping the call (`none` = normal return).

    The modelled control flow follows CPython on the values this program
    actually produces:
    * unknown project id: print and return (lines 80-83), no exception;
    * `force`: purge the project's vector rows and its whole cache first
      (lines 87-89);
    * re-cache the file tree (line 92 → `get_project_tree`);
    * line 95 `text_chunks, symbols = self.gatherer.scan_project(...)`:
      `scan_project` returns ONE flat list of item dicts
      (`gatherer.py` lines 167-242), so the tuple unpack raises `ValueError`
      unless the scan yielded exactly 2 items;
    * with exactly 2 items both names hold item DICTS, so the first
      subsequent use explodes: `text_chunks.append(...)` (line 100) raises
      `AttributeError` when the project has local documents; otherwise the
      symbolic branch (line 112) iterates the dict's string keys and
      `s.type` raises `AttributeError`; otherwise the semantic branch
      (line 125) evaluates `chunk["content"]` on a string key and raises
      `TypeError`.  (Item dicts are never empty, so the `and symbols` /
      `and text_chunks` guards are truthy.)

    `fsEntries` is the directory listing of the project's registered path. -/
def index_build (mdSplitE : String → Except String (List MDDoc))
    (recSplit : String → List String) (abspathF : String → String)
    (fsEntries : List FT) (treeStr : String) (st : VoxState)
    (project_id : String) (itype : String := "all") (force : Bool := false) :
    VoxState × Option String :=
  match LocalMetaStorage.get_project st.loc project_id with
  | none => (st, none)
  | some proj =>
    let st1 := if force then
        { st with vec := VectorStorage.delete_project_rows st.vec project_id
                  cache := CacheLayer.invalidate st.cache project_id }
      else st
    let st2 := get_project_tree treeStr st1 project_id
    let scanned := Gatherer.scan_project mdSplitE recSplit abspathF proj.path
      fsEntries
    if scanned.length == 2 then
      if !(LocalMetaStorage.list_documents st2.loc project_id).isEmpty then
        (st2, some "AttributeError: dict object has no attribute append")
      else if itype == "all" || itype == "symbolic" then
        (st2, some "AttributeError: str object has no attribute type")
      else if itype == "all" || itype == "semantic" then
        (st2, some "TypeError: string indices must be integers")
      else (st2, none)
    else (st2, some "ValueError: cannot unpack scan_project result into two names")

end VoxManager

/- ---------------------------------------------------------------------------
Claim C3 — forced reindex: purge happens, but the rebuild crashes
--------------------------------------------------------------------------- -/

/-- Registry/vector/cache state with one project `p1` that already has one
    indexed run (one symbol row, one text row) and one stale cache row. -/
def stC3 : VoxState :=
  { loc := { projects := [⟨"p1", "proj", "/p"⟩], documents := [], nextDocId := 1 }
    vec := { symbols := [⟨"p1", "old", "function", "def old(): pass", [1],
               some "old.py"⟩]
             texts := [⟨"p1", "old text", [1], "markdown"⟩] }
    cache := [⟨"p1", "stale", "v"⟩] }

/-- Listing of `p1`'s project directory: one Python file, one symbol. -/
def entriesC3 : List FT := [FT.file "good.py" "def ok(): pass" goodPyTree]

/-- Claim C3: with `force=true`, `index_build` DOES purge the project's
    vector rows and cache first — for every state in which the project
    exists, the resulting vector store is exactly the purged one — but the
    rebuild can never complete: `manager.py` line 95 unpacks the flat item
    list returned by `scan_project` into `(text_chunks, symbols)`
    (the tests, `tests/test_gatherer.py` line 53, expect the same pair), so
    a forced reindex of a project whose scan yields one item raises
    `ValueError` after the purge, leaving zero items instead of the new
    run's items. -/
theorem index_build_crashes_after_purge
    (mdS : String → Except String (List MDDoc)) (recS : String → List String)
    (absF : String → String) (fs : List FT) (treeStr : String) (st : VoxState)
    (pid itype : String) (proj : ProjectRow)
    (hproj : LocalMetaStorage.get_project st.loc pid = some proj) :
    ((VoxManager.index_build mdS recS absF fs treeStr st pid itype true).1.vec
      = VectorStorage.delete_project_rows st.vec pid) ∧
    (VoxManager.index_build mdSplit0 recSplit0 (fun s => s) entriesC3 "tree"
        stC3 "p1" "all" true
      = (⟨⟨[⟨"p1", "proj", "/p"⟩], [], 1⟩, ⟨[], []⟩,
          [⟨"p1", "file_tree", "tree"⟩]⟩,
         some "ValueError: cannot unpack scan_project result into two names")) ∧
    (Gatherer.scan_project mdSplit0 recSplit0 (fun s => s) "/p" entriesC3).length
      = 1 := by
  refine ⟨?_, by decide, by decide⟩
  simp only [VoxManager.index_build, hproj]
  repeat' split
  all_goals simp_all [VoxManager.get_project_tree_vec]

/-- Witness for C3's general purge clause at the concrete state. -/
theorem index_build_crashes_after_purge_witness :
    (VoxManager.index_build mdSplit0 recSplit0 (fun s => s) entriesC3 "tree"
        stC3 "p1" "all" true).1.vec
      = VectorStorage.delete_project_rows stC3.vec "p1" :=
  (index_build_crashes_after_purge mdSplit0 recSplit0 (fun s => s) entriesC3
    "tree" stC3 "p1" "all" ⟨"p1", "proj", "/p"⟩ (by decide)).1

/- ---------------------------------------------------------------------------
Claim C1 — project deletion across the three stores
--------------------------------------------------------------------------- -/

/-- State with one project `p1` owning one document, one symbol row, one
    text row and one cache row. -/
def stC1 : VoxState :=
  { loc := { projects := [⟨"p1", "proj", "/p"⟩],
             documents := [⟨1, "p1", "note", some "t", "hello", none⟩],
             nextDocId := 2 }
    vec := { symbols := [⟨"p1", "foo", "function", "def foo(): pass", [1],
               some "a.py"⟩]
             texts := [⟨"p1", "Title: t\nhello", [1], "note"⟩] }
    cache := [⟨"p1", "file_tree", "tree"⟩] }

/-- Claim C1 evaluated at the failing input: `project_delete("p1")` empties
    the vector store and the cache and scoped searches return `[]`, but the
    DOCUMENT row referencing `p1` survives — `datalayer.py` declares
    `ON DELETE CASCADE` (line 55) yet never issues
    `PRAGMA foreign_keys = ON`, so Python's sqlite3 (foreign keys off by
    default) does not cascade and `delete_project` only deletes the
    `projects` row. -/
theorem project_delete_keeps_document_rows :
    (VoxManager.project_delete stC1 "p1").loc.projects = [] ∧
    (VoxManager.project_delete stC1 "p1").loc.documents
      = [⟨1, "p1", "note", some "t", "hello", none⟩] ∧
    (VoxManager.project_delete stC1 "p1").vec.symbols = [] ∧
    (VoxManager.project_delete stC1 "p1").vec.texts = [] ∧
    (VoxManager.project_delete stC1 "p1").cache = [] ∧
    VectorStorage.search_text
        (.ok (VoxManager.project_delete stC1 "p1").vec.texts) [0] (some "p1")
        10 dFirst = [] ∧
    VectorStorage.search_symbols
        (.ok (VoxManager.project_delete stC1 "p1").vec.symbols) "foo" [0]
        (some "p1") 10 dFirst = [] ∧
    LocalMetaStorage.list_documents (VoxManager.project_delete stC1 "p1").loc
        "p1" = [⟨1, "p1", "note", some "t", "hello", none⟩] := by
  decide

end Vox
